import Mathlib

/-!
Verification of the Vika_TG_Admin message-aggregation hub.

The development shallowly embeds the two storage/ingestion lineages of the
repository:

* the "V2" lineage (`core/storage.py`, `bot/handlers/business.py`,
  `bot/handlers/groups.py`) — dedup ledger, mute list, hub-message table,
  business/group ingestion handlers;
* the "V1" lineage (`storage.py`, `filters.py`, `router.py`, `assistant.py`,
  `knowledge_base.py`) — message mapping, triage queue, reply router,
  AI-draft lifecycle.

Python strings are modelled by `String`; `str.lower` is modelled for the
ASCII and Cyrillic alphabets actually used by the configuration; `str.strip`
is modelled as trimming ASCII whitespace.  Database calls are atomic state
transformers (each method of the Python classes runs in a single SQLite
transaction); wall-clock values (`datetime.now()`) are passed explicitly.
-/

/-- Python `str.lower` restricted to the alphabets that occur in the
repository: ASCII `A`–`Z` and Cyrillic `А`–`Я` (U+0410–U+042F) plus `Ё`. -/
def pyLowerChar (c : Char) : Char :=
  if c.toNat ≥ 65 ∧ c.toNat ≤ 90 then Char.ofNat (c.toNat + 32)
  else if c.toNat ≥ 0x410 ∧ c.toNat ≤ 0x42F then Char.ofNat (c.toNat + 32)
  else if c.toNat = 0x401 then Char.ofNat 0x451
  else c

/-- Python `str.lower` (see `pyLowerChar`). -/
def pyLower (s : String) : String :=
  ⟨s.data.map pyLowerChar⟩

/-- ASCII whitespace, as stripped by Python `str.strip()`. -/
def pyIsSpace (c : Char) : Bool :=
  c = ' ' ∨ c = '\t' ∨ c = '\n' ∨ c = '\r' ∨ c = '\x0b' ∨ c = '\x0c'

/-- Python `str.strip()` with no argument: drop leading and trailing
whitespace. -/
def pyStrip (s : String) : String :=
  ⟨(s.data.dropWhile pyIsSpace).reverse.dropWhile pyIsSpace |>.reverse⟩

/-- `needle` occurs as a contiguous sublist of `hay`. -/
def listContains (hay needle : List Char) : Bool :=
  match hay with
  | [] => needle.isEmpty
  | _ :: t => needle.isPrefixOf hay || listContains t needle

/-- Python `needle in hay` on strings (substring containment). -/
def strContains (hay needle : String) : Bool :=
  listContains hay.data needle.data

/-- Python `a or b or ""` for two optional strings (`""` is falsy). -/
def pyOrStr (a b : Option String) : String :=
  match a with
  | some s => if s = "" then (match b with | some t => t | none => "") else s
  | none => match b with | some t => t | none => ""

/-- Byte-order (equivalently code-point-order) `≤` on character lists; this
is the ordering SQLite uses to compare TEXT columns with the default BINARY
collation. -/
def charListLeB : List Char → List Char → Bool
  | [], _ => true
  | _ :: _, [] => false
  | a :: as, b :: bs =>
      if a.toNat < b.toNat then true
      else if b.toNat < a.toNat then false
      else charListLeB as bs

/-- SQLite TEXT `≤` (BINARY collation). -/
def strLeB (s t : String) : Bool :=
  charListLeB s.data t.data

/-- Insert `a` into `l` in front of the first element `b` with `le a b`. -/
def insertOrdered (le : α → α → Bool) (a : α) : List α → List α
  | [] => [a]
  | b :: l => if le a b then a :: b :: l else b :: insertOrdered le a l

/-- Insertion sort by a Bool-valued comparator. -/
def sortByLe (le : α → α → Bool) : List α → List α
  | [] => []
  | a :: l => insertOrdered le a (sortByLe le l)

/-!
## V2 lineage: `core/models.py` and `core/storage.py`
-/

/-- `MessageSource` enum from `core/models.py`. -/
inductive MessageSource
  | business_dm
  | group_students
  | group_curators
  | getcourse
  | hub
deriving DecidableEq

/-- `MessageSource(str, Enum)` string values. -/
def MessageSource.value : MessageSource → String
  | .business_dm => "business_dm"
  | .group_students => "group_students"
  | .group_curators => "group_curators"
  | .getcourse => "getcourse"
  | .hub => "hub"

/-- `MessagePriority` enum from `core/models.py`. -/
inductive MessagePriority
  | urgent
  | high
  | normal
  | low
deriving DecidableEq

/-- `MessagePriority(str, Enum)` string values. -/
def MessagePriority.value : MessagePriority → String
  | .urgent => "urgent"
  | .high => "high"
  | .normal => "normal"
  | .low => "low"

/-- A row of the `hub_messages` table (`core/storage.py:_init_db`), which is
also the persisted shape of the `HubMessage` dataclass in `core/models.py`. -/
structure HubMessage where
  hub_message_id : Nat
  source : String
  source_message_id : Option Nat
  source_chat_id : Option Int
  business_connection_id : Option String
  sender_id : Option Int
  sender_name : String
  sender_username : Option String
  chat_name : Option String
  priority : String
  created_at : String
  replied : Bool := false
  replied_at : Option String := none
deriving DecidableEq

/-- A row of the `muted_chats` table (V2 schema). -/
structure MutedChat where
  chat_id : Int
  muted_at : String
  reason : Option String
deriving DecidableEq

/-- A row of the dedup ledger `processed_messages`; the composite
`(source, chat_id, message_id)` is its PRIMARY KEY. -/
structure ProcEntry where
  source : String
  chat_id : Int
  message_id : Nat
  processed_at : String
deriving DecidableEq

/-- A row of `daily_stats`, keyed by `date`. -/
structure DailyStat where
  date : String
  total_messages : Nat := 0
  business_dm : Nat := 0
  group_students : Nat := 0
  group_curators : Nat := 0
  getcourse : Nat := 0
  ai_drafts : Nat := 0
  responses_sent : Nat := 0
deriving DecidableEq

/-- The state of the V2 `Database` (`core/storage.py`).  Lists hold rows in
insertion (rowid) order; every method of the Python class runs as one SQLite
transaction, so each operation below is one atomic state transformer. -/
structure V2DB where
  hub_messages : List HubMessage := []
  muted_chats : List MutedChat := []
  processed_messages : List ProcEntry := []
  daily_stats : List DailyStat := []
deriving DecidableEq

/-- `Database.save_hub_message`: plain INSERT, returns `lastrowid`. -/
def V2DB.save_hub_message (db : V2DB) (msg : HubMessage) : V2DB × Nat :=
  ({ db with hub_messages := db.hub_messages ++ [msg] },
   db.hub_messages.length + 1)

/-- `Database.get_hub_message`: first row with the given `hub_message_id`
(`fetchone` in rowid order), `None` when absent. -/
def V2DB.get_hub_message (db : V2DB) (hubId : Nat) : Option HubMessage :=
  db.hub_messages.find? (fun r => decide (r.hub_message_id = hubId))

/-- `Database.mark_replied`: UPDATE every row with the given
`hub_message_id`, setting `replied = 1` and `replied_at = now`. -/
def V2DB.mark_replied (db : V2DB) (hubId : Nat) (now : String) : V2DB :=
  { db with hub_messages := db.hub_messages.map (fun r =>
      if r.hub_message_id = hubId then
        { r with replied := true, replied_at := some now }
      else r) }

/-- `Database.mute_chat`: INSERT OR REPLACE keyed on `chat_id`. -/
def V2DB.mute_chat (db : V2DB) (chatId : Int) (reason : Option String)
    (now : String) : V2DB :=
  { db with muted_chats :=
      db.muted_chats.filter (fun m => !decide (m.chat_id = chatId))
        ++ [⟨chatId, now, reason⟩] }

/-- `Database.unmute_chat`: DELETE by `chat_id`. -/
def V2DB.unmute_chat (db : V2DB) (chatId : Int) : V2DB :=
  { db with muted_chats :=
      db.muted_chats.filter (fun m => !decide (m.chat_id = chatId)) }

/-- `Database.is_muted`: existence check. -/
def V2DB.is_muted (db : V2DB) (chatId : Int) : Bool :=
  db.muted_chats.any (fun m => decide (m.chat_id = chatId))

/-- `Database.is_duplicate`: pure existence check against the dedup
ledger. -/
def V2DB.is_duplicate (db : V2DB) (source : String) (chatId : Int)
    (messageId : Nat) : Bool :=
  db.processed_messages.any (fun e =>
    decide (e.source = source ∧ e.chat_id = chatId ∧ e.message_id = messageId))

/-- `Database.mark_processed`: INSERT OR IGNORE on the ledger primary key —
when the key already exists the row (and its `processed_at`) is left
untouched; the method reports nothing about which case occurred. -/
def V2DB.mark_processed (db : V2DB) (source : String) (chatId : Int)
    (messageId : Nat) (now : String) : V2DB :=
  if db.is_duplicate source chatId messageId then db
  else { db with processed_messages :=
      db.processed_messages ++ [⟨source, chatId, messageId, now⟩] }

/-- Column bump of `daily_stats` selected by `Database.increment_stat`. -/
def DailyStat.bump (r : DailyStat) (src : MessageSource) (n : Nat) : DailyStat :=
  match src with
  | .business_dm => { r with business_dm := r.business_dm + n }
  | .group_students => { r with group_students := r.group_students + n }
  | .group_curators => { r with group_curators := r.group_curators + n }
  | .getcourse => { r with getcourse := r.getcourse + n }
  | .hub => r

/-- Bump helper for the `total_messages` counter. -/
def DailyStat.total_messages' (r : DailyStat) (n : Nat) : DailyStat :=
  { r with total_messages := r.total_messages + n }

/-- `Database.increment_stat`: upsert on today's row; sources outside the
column map (`hub`) are ignored. -/
def V2DB.increment_stat (db : V2DB) (src : MessageSource) (n : Nat)
    (today : String) : V2DB :=
  match src with
  | .hub => db
  | _ =>
    if db.daily_stats.any (fun r => decide (r.date = today)) then
      { db with daily_stats := db.daily_stats.map (fun r =>
          if r.date = today then
            (r.bump src n).total_messages' n
          else r) }
    else
      { db with daily_stats :=
          db.daily_stats ++ [(DailyStat.bump { date := today } src n).total_messages' n] }

/-!
## V2 ingestion: `config.py`, `bot/handlers/business.py`,
`bot/handlers/groups.py`

The bot client is modelled by a hub outbox: `bot.send_message(hub_chat_id, …)`
appends a post and yields its message id.  Per §5 of the design, every store
call and every network send is a suspension point between which concurrently
scheduled listeners may interleave; each modelled operation is atomic.
Media re-forwarding (`message.forward`) is best-effort I/O that touches no
persistent state and is not modelled.
-/

/-- `FilterConfig` (V2 `config.py`). -/
structure FilterConfigV2 where
  urgent_keywords : List String
  question_keywords : List String
  noise_patterns : List String
  min_group_message_length : Nat
  forward_all_business_dm : Bool := true

/-- Default field values of `FilterConfig` in `config.py`. -/
def filterConfigV2Default : FilterConfigV2 where
  urgent_keywords :=
    ["срочно", "помогите", "не работает", "ошибка", "проблема",
     "не могу", "сломалось", "баг", "urgent", "help", "asap"]
  question_keywords :=
    ["как", "почему", "зачем", "когда", "где", "кто", "что",
     "можно ли", "подскажите", "объясните", "?"]
  noise_patterns :=
    ["👍", "👎", "❤️", "🔥", "+1", "ок", "спс", "спасибо",
     "благодарю", "ясно", "понял", "понятно", "хорошо", "ага"]
  min_group_message_length := 5

/-- The part of the V2 `Config` that the group/business handlers read. -/
structure V2Config where
  hub_chat_id : Int
  group_students_chat_id : Int
  group_students_name : String
  group_curators_chat_id : Int
  group_curators_name : String
  filters : FilterConfigV2

/-- A Telegram user as seen by the handlers. -/
structure TgUser where
  id : Int
  full_name : String
  username : Option String
  is_bot : Bool
deriving DecidableEq

/-- An inbound message event (business DM or group), fields as read by
`on_business_message` / `on_group_message`. -/
structure InboundMessage where
  chat_id : Int
  message_id : Nat
  from_user : Option TgUser
  text : Option String
  caption : Option String
  has_media : Bool
  date : String
  business_connection_id : Option String := none
deriving DecidableEq

/-- A post delivered to the hub chat: the identity assigned by Telegram plus
the payload `core/formatter.format_hub_message` renders the card from. -/
structure HubPost where
  message_id : Nat
  source : MessageSource
  sender_name : String
  chat_name : String
  priority : MessagePriority
  text : String
deriving DecidableEq

/-- World state of the V2 process: the database plus the hub transport. -/
structure V2World where
  db : V2DB := {}
  hub_posts : List HubPost := []
  next_hub_id : Nat := 1
deriving DecidableEq

/-- `bot.send_message(config.hub_chat_id, …)`: the transport assigns the next
message id. -/
def V2World.sendToHub (w : V2World) (source : MessageSource)
    (senderName chatName : String) (priority : MessagePriority)
    (text : String) : Nat × V2World :=
  (w.next_hub_id,
   { w with
      hub_posts := w.hub_posts ++
        [⟨w.next_hub_id, source, senderName, chatName, priority, text⟩],
      next_hub_id := w.next_hub_id + 1 })

/-- `_analyze_priority` in `bot/handlers/business.py`: urgent keywords beat
question keywords; each keyword is matched as a substring of the lowercased
text. -/
def analyzePriorityBusiness (f : FilterConfigV2) (text : String) :
    MessagePriority :=
  if text = "" then .normal
  else if f.urgent_keywords.any (fun k => strContains (pyLower text) k) then
    .urgent
  else if f.question_keywords.any (fun k => strContains (pyLower text) k) then
    .high
  else .normal

/-- `_analyze_priority` in `bot/handlers/groups.py` (identical except that an
empty text is LOW rather than NORMAL). -/
def analyzePriorityGroups (f : FilterConfigV2) (text : String) :
    MessagePriority :=
  if text = "" then .low
  else if f.urgent_keywords.any (fun k => strContains (pyLower text) k) then
    .urgent
  else if f.question_keywords.any (fun k => strContains (pyLower text) k) then
    .high
  else .normal

/-- `sender.full_name if sender else "Unknown"`. -/
def senderNameOf (m : InboundMessage) : String :=
  match m.from_user with
  | some u => u.full_name
  | none => "Unknown"

/-- The guard at `business.py:83` (`message.from_user.id ==
message.business_connection_id`) compares a Python `int` with a `str`, which
is never equal in Python 3, so the outgoing-message filter never fires. -/
def businessOutgoingGuard (_m : InboundMessage) : Bool := false

/-- The mute/dedup gate of `on_business_message` (lines 86–94): the handler
proceeds iff the chat is not muted and the `(source, chat, msg)` key is not
in the dedup ledger.  These are two separate read transactions followed by a
separate `mark_processed` write in `businessCommit`. -/
def businessProceeds (w : V2World) (m : InboundMessage) : Bool :=
  !(w.db.is_muted m.chat_id) &&
  !(w.db.is_duplicate "business_dm" m.chat_id m.message_id)

/-- The act phase of `on_business_message` (lines 95–157): mark processed,
post the card to the hub, save the mapping, bump the stats. -/
def businessCommit (cfg : V2Config) (now : String) (w : V2World)
    (m : InboundMessage) : V2World :=
  let db1 := w.db.mark_processed "business_dm" m.chat_id m.message_id now
  let text := pyOrStr m.text m.caption
  let priority := analyzePriorityBusiness cfg.filters text
  let sname := senderNameOf m
  let (hubId, w1) := V2World.sendToHub { w with db := db1 }
      .business_dm sname sname priority text
  let row : HubMessage :=
    { hub_message_id := hubId
      source := MessageSource.business_dm.value
      source_message_id := some m.message_id
      source_chat_id := some m.chat_id
      business_connection_id := m.business_connection_id
      sender_id := (m.from_user.map (·.id))
      sender_name := sname
      sender_username := (m.from_user.bind (·.username))
      chat_name := some sname
      priority := priority.value
      created_at := now }
  let (db2, _) := w1.db.save_hub_message row
  { w1 with db := db2.increment_stat .business_dm 1 (now.take 10) }

/-- `on_business_message` (`bot/handlers/business.py`): early returns for
muted chats and ledger duplicates, then the act phase. -/
def onBusinessMessage (cfg : V2Config) (now : String) (w : V2World)
    (m : InboundMessage) : V2World :=
  if businessOutgoingGuard m then w
  else if businessProceeds w m then businessCommit cfg now w m
  else w

/-- `get_source_for_chat` (`bot/handlers/groups.py`). -/
def getSourceForChat (cfg : V2Config) (chatId : Int) : Option MessageSource :=
  if cfg.group_students_chat_id = chatId then some .group_students
  else if cfg.group_curators_chat_id = chatId then some .group_curators
  else none

/-- `Config.get_group_name` (V2 `config.py`). -/
def getGroupName (cfg : V2Config) (chatId : Int) : String :=
  if cfg.group_students_chat_id = chatId then cfg.group_students_name
  else if cfg.group_curators_chat_id = chatId then cfg.group_curators_name
  else "Неизвестная группа"

/-- `on_group_message` (`bot/handlers/groups.py`): source resolution, mute
check, bot check, length filter, noise filter, dedup check, then
mark-processed / hub post / mapping save / stats, in exactly the order of the
source.  Both filters return before `mark_processed` is reached. -/
def onGroupMessage (cfg : V2Config) (now : String) (w : V2World)
    (m : InboundMessage) : V2World :=
  match getSourceForChat cfg m.chat_id with
  | none => w
  | some source =>
    if w.db.is_muted m.chat_id then w
    else if (match m.from_user with | some u => u.is_bot | none => false) then w
    else
      let text := pyOrStr m.text m.caption
      if text.length < cfg.filters.min_group_message_length then w
      else if cfg.filters.noise_patterns.any
          (fun nz => decide (pyStrip (pyLower text) = pyLower nz)) then w
      else if w.db.is_duplicate source.value m.chat_id m.message_id then w
      else
        let db1 := w.db.mark_processed source.value m.chat_id m.message_id now
        let sname := senderNameOf m
        let gname := getGroupName cfg m.chat_id
        let priority := analyzePriorityGroups cfg.filters text
        let (hubId, w1) := V2World.sendToHub { w with db := db1 }
            source sname gname priority text
        let row : HubMessage :=
          { hub_message_id := hubId
            source := source.value
            source_message_id := some m.message_id
            source_chat_id := some m.chat_id
            business_connection_id := none
            sender_id := (m.from_user.map (·.id))
            sender_name := sname
            sender_username := (m.from_user.bind (·.username))
            chat_name := some gname
            priority := priority.value
            created_at := now }
        let (db2, _) := w1.db.save_hub_message row
        { w1 with db := db2.increment_stat source 1 (now.take 10) }

/-- The mutating operations of the V2 `Database` (`core/storage.py`), as one
step relation for closure properties of the store. -/
inductive V2Op
  | save_hub_message (msg : HubMessage)
  | mark_replied (hubId : Nat) (now : String)
  | mute_chat (chatId : Int) (reason : Option String) (now : String)
  | unmute_chat (chatId : Int)
  | mark_processed (source : String) (chatId : Int) (messageId : Nat)
      (now : String)
  | increment_stat (src : MessageSource) (n : Nat) (today : String)

/-- Effect of a store operation on the database state. -/
def V2Op.apply : V2Op → V2DB → V2DB
  | .save_hub_message msg, db => (db.save_hub_message msg).1
  | .mark_replied hubId now, db => db.mark_replied hubId now
  | .mute_chat c r now, db => db.mute_chat c r now
  | .unmute_chat c, db => db.unmute_chat c
  | .mark_processed s c m now, db => db.mark_processed s c m now
  | .increment_stat src n today, db => db.increment_stat src n today

/-!
## V1 lineage: `storage.py`
-/

/-- The `MessageRecord` dataclass / `message_mapping` row (`storage.py`).
The schema declares only non-unique indexes on `hub_message_id` and
`(original_chat_id, original_message_id)` — no UNIQUE constraint. -/
structure MessageRecord where
  id : Option Nat := none
  hub_message_id : Nat
  original_message_id : Nat
  original_chat_id : Int
  source_account : String
  sender_id : Int
  sender_name : String
  sender_username : Option String
  chat_name : String
  chat_type : String
  priority : String
  timestamp : String
  replied : Bool := false
  replied_at : Option String := none
deriving DecidableEq

/-- State of the V1 `Database` (`storage.py`): the message mapping in rowid
order plus the mute list.  (The `watched_chats` and `quick_replies` tables
are not touched by any operation modelled here.) -/
structure V1DB where
  message_mapping : List MessageRecord := []
  muted_chats : List (Int × String) := []
deriving DecidableEq

/-- `Database.save_message`: plain INSERT (no uniqueness check of any kind),
returns `lastrowid`. -/
def V1DB.save_message (db : V1DB) (r : MessageRecord) : V1DB × Nat :=
  let rid := db.message_mapping.length + 1
  ({ db with message_mapping :=
      db.message_mapping ++ [{ r with id := some rid }] }, rid)

/-- `Database.find_by_hub_message`: `fetchone` — the first row in rowid order
with the given `hub_message_id`; `None` when absent. -/
def V1DB.find_by_hub_message (db : V1DB) (hubId : Nat) : Option MessageRecord :=
  db.message_mapping.find? (fun r => decide (r.hub_message_id = hubId))

/-- `Database.mark_replied`: UPDATE all rows with the hub id, setting
`replied = 1, replied_at = datetime('now')`. -/
def V1DB.mark_replied (db : V1DB) (hubId : Nat) (now : String) : V1DB :=
  { db with message_mapping := db.message_mapping.map (fun r =>
      if r.hub_message_id = hubId then
        { r with replied := true, replied_at := some now }
      else r) }

/-- The `CASE priority … END` key of `get_unreplied`: urgent 0, normal 1,
info 2; any other value yields SQL NULL, which sorts before every non-NULL
value under `ASC` — encoded by shifting the three named ranks up by one. -/
def sqlPriorityRank (p : String) : Nat :=
  if p = "urgent" then 1
  else if p = "normal" then 2
  else if p = "info" then 3
  else 0

/-- The `ORDER BY` key of `get_unreplied`: priority rank first, then the
TEXT timestamp under BINARY collation, ascending. -/
def triageLeB (a b : MessageRecord) : Bool :=
  decide (sqlPriorityRank a.priority < sqlPriorityRank b.priority) ||
  (decide (sqlPriorityRank a.priority = sqlPriorityRank b.priority) &&
   strLeB a.timestamp b.timestamp)

/-- `Database.get_unreplied`: `WHERE replied = 0 ORDER BY CASE priority …,
timestamp ASC LIMIT ?`. -/
def V1DB.get_unreplied (db : V1DB) (limit : Nat) : List MessageRecord :=
  (sortByLe triageLeB (db.message_mapping.filter (fun r => !r.replied))).take
    limit

/-- V1 `Database.mute_chat`: INSERT OR REPLACE keyed on `chat_id`. -/
def V1DB.mute_chat (db : V1DB) (chatId : Int) (chatName : String) : V1DB :=
  { db with muted_chats :=
      db.muted_chats.filter (fun m => !decide (m.1 = chatId)) ++
        [(chatId, chatName)] }

/-- V1 `Database.is_muted`. -/
def V1DB.is_muted (db : V1DB) (chatId : Int) : Bool :=
  db.muted_chats.any (fun m => decide (m.1 = chatId))

/-!
## V1 classifier: `filters.py`

`filters.py` imports its `FilterConfig` from the V1 configuration module,
which is not part of the checked-in sources; the structure below carries
exactly the fields `MessageFilter` reads from it.
-/

/-- The V1 `FilterConfig` fields consumed by `filters.py`. -/
structure FilterConfigV1 where
  urgent_keywords : List String
  noise_patterns : List String
  min_group_message_length : Nat
  forward_all_dm : Bool
  groups_questions_only : Bool

/-- `FilterResult` dataclass (`filters.py`). -/
structure FilterResult where
  should_forward : Bool
  priority : String
  reason : String
  tags : List String
deriving DecidableEq

/-- The precompiled noise set of `MessageFilter.__init__`:
`{p.lower().strip() for p in config.noise_patterns}`. -/
def noiseSet (cfg : FilterConfigV1) : List String :=
  cfg.noise_patterns.map (fun p => pyStrip (pyLower p))

/-- `self._urgent_re.search(text)`: an IGNORECASE alternation of the escaped
urgent keywords.  `"|".join` of an empty keyword list compiles to the empty
pattern, which matches every text; an empty keyword inside the list likewise
matches trivially (`strContains _ "" = true`). -/
def urgentSearch (cfg : FilterConfigV1) (text : String) : Bool :=
  cfg.urgent_keywords.isEmpty ||
  cfg.urgent_keywords.any (fun k => strContains (pyLower text) (pyLower k))

/-- The word-plus-`\s` alternatives of `self._question_re`. -/
def questionWordsWS : List String :=
  ["как", "где", "когда", "почему", "зачем", "можно"]

/-- Whitespace characters matched by `\s` for the ASCII range. -/
def reWhitespace : List Char := [' ', '\t', '\n', '\r', '\x0b', '\x0c']

/-- `self._question_re.search(text)`:
`\?|как\s|где\s|когда\s|почему\s|зачем\s|можно\s|подскажите|помогите`,
IGNORECASE. -/
def questionSearch (text : String) : Bool :=
  strContains text "?" ||
  questionWordsWS.any (fun w =>
    reWhitespace.any (fun c => strContains (pyLower text) (w.push c))) ||
  strContains (pyLower text) "подскажите" ||
  strContains (pyLower text) "помогите"

/-- The gratitude word list hard-coded in `MessageFilter.analyze`. -/
def gratitudeWords : List String :=
  ["спасибо", "благодарю", "thanks", "thank you", "отлично", "супер"]

/-- `MessageFilter.analyze` (`filters.py:33`): a pure function of the text,
the chat type and the configuration — noise first, then the group length
floor, then priority scoring, then the forwarding decision. -/
def analyze (cfg : FilterConfigV1) (text : String) (chat_type : String) :
    FilterResult :=
  let text_stripped := pyStrip text
  let text_lower := pyLower text_stripped
  if text_lower ∈ noiseSet cfg then
    ⟨false, "info", "noise_pattern", ["шум"]⟩
  else if (chat_type = "group" ∨ chat_type = "supergroup") ∧
      text_stripped.length < cfg.min_group_message_length then
    ⟨false, "info", "too_short_for_group", ["короткое"]⟩
  else
    let urgent := urgentSearch cfg text
    let question := questionSearch text
    let priority0 := if urgent then "urgent" else "normal"
    let tags0 : List String :=
      (if urgent then ["🔴 срочно"] else []) ++
      (if question then ["❓ вопрос"] else [])
    let gratitude := gratitudeWords.any (fun w => strContains text_lower w)
    let tags1 := tags0 ++ (if gratitude then ["💚 благодарность"] else [])
    let priority :=
      if gratitude ∧ priority0 = "normal" then "info" else priority0
    if chat_type = "dm" then
      ⟨cfg.forward_all_dm, priority, "dm_message",
        if tags1.isEmpty then ["💬 личное"] else tags1⟩
    else if chat_type = "group" ∨ chat_type = "supergroup" then
      if cfg.groups_questions_only then
        let has_question :=
          decide ("❓ вопрос" ∈ tags1) || decide ("🔴 срочно" ∈ tags1)
        ⟨has_question, priority,
          if has_question then "group_questions_filter" else "not_a_question",
          if tags1.isEmpty then ["💬 группа"] else tags1⟩
      else
        ⟨true, priority, "group_all_messages",
          if tags1.isEmpty then ["💬 группа"] else tags1⟩
    else
      ⟨true, priority, "default", tags1⟩

/-!
## Reply router and draft lifecycle: `router.py`, `assistant.py`

The Telethon dispatch `client.send_message(entity=…, reply_to=…)` is a
network effect whose success or failure is an input to the model
(`Dispatch`); a successful dispatch is recorded in `outbox`.  The learning
sink (`knowledge_base.py`) is modelled by its two append-only tables
`ai_stats` (`log_ai_action`) and `learned_replies` (`save_learned_reply`).
`event.reply(…)` messages to the moderator are collected in
`moderator_replies`.
-/

/-- Outcome of the outbound Telethon dispatch. -/
inductive Dispatch
  | ok
  | fail (e : String)
deriving DecidableEq

/-- One `ai_stats` row written by `KnowledgeBase.log_ai_action`. -/
structure AIActionRecord where
  hub_message_id : Nat
  draft_text : String
  action : String
  final_text : String
deriving DecidableEq

/-- One `learned_replies` row written by `KnowledgeBase.save_learned_reply`. -/
structure LearnedReply where
  question_text : String
  reply_text : String
  sender_name : String
  chat_name : String
deriving DecidableEq

/-- Combined state of `ReplyRouter`, `AIAssistant` and their collaborators.
`clients` holds the account names for which the aggregator has a connected
Telethon client (`Aggregator.get_client_for_account`). -/
structure RouterState where
  db : V1DB := {}
  clients : List String := []
  aiPresent : Bool := true
  aiEnabled : Bool := true
  pending_drafts : List (Nat × String) := []
  ai_stats : List AIActionRecord := []
  learned_replies : List LearnedReply := []
  outbox : List (Int × Nat × String) := []
  moderator_replies : List String := []
deriving DecidableEq

/-- `pending_drafts.get(k)` on the dict `hub_message_id → draft_text`. -/
def lookupDraft (l : List (Nat × String)) (k : Nat) : Option String :=
  (l.find? (fun p => decide (p.1 = k))).map (·.2)

/-- `pending_drafts.pop(k, default)` — removal part. -/
def popDraft (l : List (Nat × String)) (k : Nat) : List (Nat × String) :=
  l.filter (fun p => !decide (p.1 = k))

/-- `AIAssistant.handle_action` (`assistant.py:182`): pops the pending draft
(empty default), writes one `ai_stats` row, and — only when `action` is
accepted/edited AND a non-empty `original_question` and `final_text` were
passed — saves a learned question/answer pair.  Both call sites in
`router.py` pass no `original_question`, so the learned-pair branch never
fires from the router. -/
def handleAction (st : RouterState) (hubId : Nat) (action : String)
    (finalText originalQuestion senderName chatName : String) : RouterState :=
  let draftText := (lookupDraft st.pending_drafts hubId).getD ""
  let st1 := { st with
      pending_drafts := popDraft st.pending_drafts hubId
      ai_stats := st.ai_stats ++ [⟨hubId, draftText, action, finalText⟩] }
  if (action = "accepted" ∨ action = "edited") ∧ originalQuestion ≠ "" ∧
      finalText ≠ "" then
    { st1 with learned_replies := st1.learned_replies ++
        [⟨originalQuestion, finalText, senderName, chatName⟩] }
  else st1

/-- The moderator error notice of `router.py:193`:
`❌ Ошибка отправки: {e}\nЧат: {chat_name} ({original_chat_id})`. -/
def dispatchErrorNotice (e : String) (r : MessageRecord) : String :=
  "❌ Ошибка отправки: " ++ e ++ "\nЧат: " ++ r.chat_name ++ " (" ++
    toString r.original_chat_id ++ ")"

/-- The confirmation notice of `router.py:180`. -/
def dispatchOkNotice (r : MessageRecord) (aiAction : Option String) : String :=
  "✅" ++ (if aiAction.isSome then " 🤖" else "") ++ " Ответ отправлен → " ++
    r.chat_name ++ " (" ++ r.source_account ++ ")"

/-- `ReplyRouter._send_reply_to_original` (`router.py:109`): look up the
mapping, pick the client, dispatch (after the rate-limit sleep, which is
scheduling only), and only on a successful dispatch `mark_replied` and run
the draft-lifecycle bookkeeping; on failure nothing is written and the
moderator receives the error notice. -/
def sendReplyToOriginal (st : RouterState) (replyToId : Nat)
    (replyText : String) (aiAction : Option String) (dispatch : Dispatch)
    (now : String) : RouterState :=
  match st.db.find_by_hub_message replyToId with
  | none =>
    { st with moderator_replies := st.moderator_replies ++
        ["⚠️ Не удалось найти оригинальное сообщение."] }
  | some record =>
    if ¬ st.clients.contains record.source_account then
      { st with moderator_replies := st.moderator_replies ++
          ["⚠️ Аккаунт \x27" ++ record.source_account ++ "\x27 не подключён."] }
    else
      match dispatch with
      | .fail e =>
        { st with moderator_replies := st.moderator_replies ++
            [dispatchErrorNotice e record] }
      | .ok =>
        let st1 := { st with
            outbox := st.outbox ++
              [(record.original_chat_id, record.original_message_id,
                replyText)]
            db := st.db.mark_replied replyToId now }
        let st2 :=
          match aiAction with
          | some act =>
            handleAction st1 replyToId act replyText "" record.sender_name
              record.chat_name
          | none =>
            if st1.aiPresent ∧ st1.aiEnabled then
              -- router.py:157 pops the draft itself before delegating to
              -- handle_action, which pops again (empty default)
              let draftOpt := lookupDraft st1.pending_drafts replyToId
              let st1' := { st1 with
                  pending_drafts := popDraft st1.pending_drafts replyToId }
              if draftOpt.getD "" ≠ "" then
                handleAction st1' replyToId "edited" replyText ""
                  record.sender_name record.chat_name
              else
                { st1' with learned_replies := st1'.learned_replies ++
                    [(⟨"", replyText, record.sender_name,
                        record.chat_name⟩ : LearnedReply)] }
            else st1
        { st2 with moderator_replies := st2.moderator_replies ++
            [dispatchOkNotice record aiAction] }

/-- `ReplyRouter._handle_ai_action_on_original` (`router.py:198`): `!ok`
dispatches the pending draft (a falsy — absent or empty — draft yields the
not-found notice); `!no` pops the draft, records the rejection and notifies
the moderator without dispatching. -/
def handleAiActionOnOriginal (st : RouterState) (hubId : Nat) (cmd : String)
    (dispatch : Dispatch) (now : String) : RouterState :=
  if cmd = "!ok" then
    match lookupDraft st.pending_drafts hubId with
    | some d =>
      if d ≠ "" then sendReplyToOriginal st hubId d (some "accepted") dispatch now
      else { st with moderator_replies := st.moderator_replies ++
          ["⚠️ Черновик не найден."] }
    | none =>
      { st with moderator_replies := st.moderator_replies ++
          ["⚠️ Черновик не найден."] }
  else if cmd = "!no" then
    let st1 := { st with pending_drafts := popDraft st.pending_drafts hubId }
    let st2 := handleAction st1 hubId "rejected" "" "" "" ""
    { st2 with moderator_replies := st2.moderator_replies ++
        ["❌ Черновик отклонён."] }
  else st

/-- `ReplyRouter._on_hub_reply` (`router.py:54`) for a moderator message in
the hub.  `replyToId = none` models a non-reply message.  The guard at
`router.py:69` reads the attribute `_draft_hub_ids`, which `AIAssistant`
never defines; `getattr(…, {})` therefore always yields the empty dict and
that branch is dead, so it is omitted.  When the shorthand checks fall
through, the text is routed verbatim to the original chat. -/
def onHubReply (st : RouterState) (replyToId : Option Nat)
    (replyText : String) (dispatch : Dispatch) (now : String) : RouterState :=
  match replyToId with
  | none => st
  | some rid =>
    if replyText = "" then st
    else
      let token := pyLower (pyStrip replyText)
      if st.aiPresent ∧ (token = "!ok" ∨ token = "!no") ∧
          (lookupDraft st.pending_drafts rid).isSome then
        handleAiActionOnOriginal st rid token dispatch now
      else if st.aiPresent ∧ token = "!ok" ∧
          ((lookupDraft st.pending_drafts rid).getD "" ≠ "") then
        -- router.py:84–90 (unreachable after the branch above, kept for
        -- structural fidelity)
        sendReplyToOriginal st rid ((lookupDraft st.pending_drafts rid).getD "")
          (some "accepted") dispatch now
      else if st.aiPresent ∧ token = "!no" ∧
          (lookupDraft st.pending_drafts rid).isSome then
        -- router.py:92–104: reject without dispatch
        let st1 := handleAction st rid "rejected" "" "" "" ""
        { st1 with moderator_replies := st1.moderator_replies ++
            ["❌ Черновик отклонён."] }
      else
        sendReplyToOriginal st rid replyText none dispatch now

/-- Record template for the C8 triage scenario. -/
def triageRec (hub : Nat) (p ts : String) : MessageRecord :=
  { hub_message_id := hub, original_message_id := hub,
    original_chat_id := -77, source_account := "work", sender_id := 1,
    sender_name := "Юля", sender_username := none, chat_name := "Группа",
    chat_type := "group", priority := p, timestamp := ts }

/-- The C8 scenario database: priorities [normal, urgent, info, urgent]
inserted in that order with increasing timestamps. -/
def triageScenarioDb : V1DB :=
  (((((V1DB.save_message {}
      (triageRec 1 ("normal") ("2024-01-01T10:01:00"))).1.save_message
      (triageRec 2 ("urgent") ("2024-01-01T10:02:00"))).1.save_message
      (triageRec 3 ("info") ("2024-01-01T10:03:00"))).1.save_message
      (triageRec 4 ("urgent") ("2024-01-01T10:04:00"))).1)

/-- Concrete V2 configuration with the default filters of `config.py`. -/
def hubCfg : V2Config :=
  { hub_chat_id := -999, group_students_chat_id := -100,
    group_students_name := "Ученики", group_curators_chat_id := -200,
    group_curators_name := "Кураторы", filters := filterConfigV2Default }

/-- A group message "ок" from the monitored students group. -/
def noiseGroupMsg : InboundMessage :=
  { chat_id := -100, message_id := 7,
    from_user := some ⟨42, "Оля", none, false⟩, text := some ("ок"),
    caption := none, has_media := false, date := "2024-01-01T10:00:00" }

/-- A business DM used by the C1/C2 scenarios. -/
def bizMsg : InboundMessage :=
  { chat_id := 10, message_id := 42,
    from_user := some ⟨777, "Иван", none, false⟩,
    text := some ("Когда следующий урок?"), caption := none,
    has_media := false, date := "2024-01-01T09:00:00",
    business_connection_id := some ("bc1") }

/-- Concrete mapping row used by the C3 witness. -/
def replyRecC3 : MessageRecord :=
  { id := some 1, hub_message_id := 5, original_message_id := 77,
    original_chat_id := -500, source_account := "work", sender_id := 9,
    sender_name := "Маша", sender_username := none,
    chat_name := "Поток 3", chat_type := "group",
    priority := "normal", timestamp := "2024-01-01T10:00:00" }

/-- Concrete router state used by the C3 witness. -/
def replyStateC3 : RouterState :=
  { db := { message_mapping := [replyRecC3] }, clients := ["work"] }

/-- Concrete mapping row for the C9 witness. -/
def replyRecC9 : MessageRecord :=
  { id := some 1, hub_message_id := 5, original_message_id := 77,
    original_chat_id := -500, source_account := "work", sender_id := 9,
    sender_name := "Катя", sender_username := none,
    chat_name := "Поток 1", chat_type := "dm",
    priority := "normal", timestamp := "2024-01-01T10:00:00" }

/-- Concrete router state for the C9 witness: hub post 5 has the pending
draft "Урок в 18:00". -/
def draftStateC9 : RouterState :=
  { db := { message_mapping := [replyRecC9] }, clients := ["work"],
    pending_drafts := [(5, "Урок в 18:00")] }

/-- Concrete mapping row for the C6 scenario. -/
def replyRecC6 : MessageRecord :=
  { id := some 1, hub_message_id := 5, original_message_id := 77,
    original_chat_id := -500, source_account := "work", sender_id := 9,
    sender_name := "Катя", sender_username := none,
    chat_name := "Поток 1", chat_type := "dm",
    priority := "normal", timestamp := "2024-01-01T10:00:00" }

/-- Concrete router state for C6: hub post 5 has the pending draft
"Урок в 18:00" and the moderator free-replies with custom text. -/
def draftStateC6 : RouterState :=
  { db := { message_mapping := [replyRecC6] }, clients := ["work"],
    pending_drafts := [(5, "Урок в 18:00")] }

theorem charListLeB_total : ∀ x y : List Char,
    charListLeB x y = true ∨ charListLeB y x = true := by
  intro x
  induction x with
  | nil => intro y; left; rfl
  | cons a as ih =>
    intro y
    cases y with
    | nil => right; rfl
    | cons b bs =>
      by_cases hab : a.toNat < b.toNat
      · left; simp [charListLeB, hab]
      · by_cases hba : b.toNat < a.toNat
        · right; simp [charListLeB, hba]
        · rcases ih bs with h | h
          · left; simp [charListLeB, hab, hba, h]
          · right; simp [charListLeB, hab, hba, h]

theorem charListLeB_trans : ∀ x y z : List Char,
    charListLeB x y = true → charListLeB y z = true → charListLeB x z = true := by
  intro x
  induction x with
  | nil => intro y z _ _; rfl
  | cons a as ih =>
    intro y z hxy hyz
    cases y with
    | nil => simp [charListLeB] at hxy
    | cons b bs =>
      cases z with
      | nil => simp [charListLeB] at hyz
      | cons c cs =>
        simp only [charListLeB] at hxy hyz ⊢
        by_cases hab : a.toNat < b.toNat
        · by_cases hbc : b.toNat < c.toNat
          · simp [Nat.lt_trans hab hbc]
          · by_cases hcb : c.toNat < b.toNat
            · simp [hbc, hcb] at hyz
            · have hbc' : b.toNat = c.toNat := Nat.le_antisymm
                (Nat.le_of_not_lt hcb) (Nat.le_of_not_lt hbc)
              simp [hbc' ▸ hab]
        · by_cases hba : b.toNat < a.toNat
          · simp [hab, hba] at hxy
          · have hab' : a.toNat = b.toNat := Nat.le_antisymm
              (Nat.le_of_not_lt hba) (Nat.le_of_not_lt hab)
            by_cases hbc : b.toNat < c.toNat
            · simp [hab' ▸ hbc]
            · by_cases hcb : c.toNat < b.toNat
              · simp [hbc, hcb] at hyz
              · simp [hab, hba] at hxy
                have hbc' : b.toNat = c.toNat := Nat.le_antisymm
                  (Nat.le_of_not_lt hcb) (Nat.le_of_not_lt hbc)
                have hac : ¬ a.toNat < c.toNat := by omega
                have hca : ¬ c.toNat < a.toNat := by omega
                simp [hbc, hcb] at hyz
                simp [hac, hca, ih bs cs hxy hyz]

theorem mem_insertOrdered (le : α → α → Bool) (a x : α) :
    ∀ l : List α, x ∈ insertOrdered le a l ↔ x = a ∨ x ∈ l := by
  intro l
  induction l with
  | nil => simp [insertOrdered]
  | cons b t ih =>
    by_cases h : le a b
    · simp [insertOrdered, h]
    · simp only [insertOrdered, h, if_neg, Bool.false_eq_true, if_false,
        List.mem_cons, ih]
      tauto

theorem mem_sortByLe (le : α → α → Bool) (x : α) :
    ∀ l : List α, x ∈ sortByLe le l ↔ x ∈ l := by
  intro l
  induction l with
  | nil => simp [sortByLe]
  | cons a t ih => simp [sortByLe, mem_insertOrdered, ih]

theorem pairwise_insertOrdered (le : α → α → Bool)
    (htot : ∀ x y, le x y = true ∨ le y x = true)
    (htrans : ∀ x y z, le x y = true → le y z = true → le x z = true)
    (a : α) : ∀ l : List α,
    l.Pairwise (fun x y => le x y = true) →
    (insertOrdered le a l).Pairwise (fun x y => le x y = true) := by
  intro l
  induction l with
  | nil => intro _; simp [insertOrdered]
  | cons b t ih =>
    intro h
    rw [List.pairwise_cons] at h
    obtain ⟨hb, ht⟩ := h
    by_cases hab : le a b
    · simp only [insertOrdered, hab, if_true]
      rw [List.pairwise_cons]
      constructor
      · intro x hx
        rcases List.mem_cons.mp hx with rfl | hx
        · exact hab
        · exact htrans a b x hab (hb x hx)
      · rw [List.pairwise_cons]; exact ⟨hb, ht⟩
    · simp only [insertOrdered, hab, Bool.false_eq_true, if_false]
      rw [List.pairwise_cons]
      constructor
      · intro x hx
        rcases (mem_insertOrdered le a x t).mp hx with rfl | hx
        · rcases htot x b with h | h
          · exact absurd h (by simpa using hab)
          · exact h
        · exact hb x hx
      · exact ih ht

theorem pairwise_sortByLe (le : α → α → Bool)
    (htot : ∀ x y, le x y = true ∨ le y x = true)
    (htrans : ∀ x y z, le x y = true → le y z = true → le x z = true) :
    ∀ l : List α, (sortByLe le l).Pairwise (fun x y => le x y = true) := by
  intro l
  induction l with
  | nil => simp [sortByLe]
  | cons a t ih => exact pairwise_insertOrdered le htot htrans a _ ih

/-!
## Helper lemmas about the store operations
-/

theorem mark_processed_muted (db : V2DB) (s : String) (c : Int) (m : Nat)
    (t : String) : (db.mark_processed s c m t).muted_chats = db.muted_chats := by
  unfold V2DB.mark_processed
  split <;> rfl

theorem mark_processed_hub (db : V2DB) (s : String) (c : Int) (m : Nat)
    (t : String) :
    (db.mark_processed s c m t).hub_messages = db.hub_messages := by
  unfold V2DB.mark_processed
  split <;> rfl

theorem increment_stat_muted (db : V2DB) (src : MessageSource) (n : Nat)
    (d : String) : (db.increment_stat src n d).muted_chats = db.muted_chats := by
  unfold V2DB.increment_stat
  cases src <;> simp <;> split <;> rfl

theorem increment_stat_hub (db : V2DB) (src : MessageSource) (n : Nat)
    (d : String) :
    (db.increment_stat src n d).hub_messages = db.hub_messages := by
  unfold V2DB.increment_stat
  cases src <;> simp <;> split <;> rfl

theorem increment_stat_processed (db : V2DB) (src : MessageSource) (n : Nat)
    (d : String) :
    (db.increment_stat src n d).processed_messages = db.processed_messages := by
  unfold V2DB.increment_stat
  cases src <;> simp <;> split <;> rfl

theorem is_duplicate_mark_processed_self (db : V2DB) (s : String) (c : Int)
    (m : Nat) (t : String) :
    (db.mark_processed s c m t).is_duplicate s c m = true := by
  unfold V2DB.mark_processed
  split
  · assumption
  · simp [V2DB.is_duplicate, List.any_append]

theorem mark_processed_of_duplicate (db : V2DB) (s : String) (c : Int)
    (m : Nat) (t : String) (h : db.is_duplicate s c m = true) :
    db.mark_processed s c m t = db := by
  unfold V2DB.mark_processed
  simp [h]

theorem is_duplicate_monotone_append (db : V2DB) (e : ProcEntry) (s : String)
    (c : Int) (m : Nat) (h : db.is_duplicate s c m = true) :
    V2DB.is_duplicate { db with processed_messages :=
      db.processed_messages ++ [e] } s c m = true := by
  simp only [V2DB.is_duplicate, List.any_eq_true, decide_eq_true_eq] at h ⊢
  obtain ⟨x, hx, hp⟩ := h
  exact ⟨x, List.mem_append.mpr (Or.inl hx), hp⟩

theorem mark_replied_spec (db : V1DB) (hubId : Nat) (now : String) :
    ∀ x ∈ (db.mark_replied hubId now).message_mapping,
      x.hub_message_id = hubId → x.replied = true ∧ x.replied_at = some now := by
  intro x hx hid
  simp only [V1DB.mark_replied, List.mem_map] at hx
  obtain ⟨r, _, hr⟩ := hx
  by_cases h : r.hub_message_id = hubId
  · simp [h] at hr
    subst hr
    simp
  · simp [h] at hr
    subst hr
    exact absurd hid h

theorem lookupDraft_popDraft_self (l : List (Nat × String)) (k : Nat) :
    lookupDraft (popDraft l k) k = none := by
  unfold lookupDraft popDraft
  have hnone : List.find? (fun p => decide (p.1 = k))
      (List.filter (fun p => !decide (p.1 = k)) l) = none := by
    rw [List.find?_eq_none]
    intro x hx
    simpa using (List.mem_filter.mp hx).2
  rw [hnone]
  rfl

theorem strLeB_total (a b : String) : strLeB a b = true ∨ strLeB b a = true :=
  charListLeB_total a.data b.data

theorem strLeB_trans (a b c : String) (h1 : strLeB a b = true)
    (h2 : strLeB b c = true) : strLeB a c = true :=
  charListLeB_trans a.data b.data c.data h1 h2

theorem triageLeB_total (a b : MessageRecord) :
    triageLeB a b = true ∨ triageLeB b a = true := by
  unfold triageLeB
  rcases Nat.lt_trichotomy (sqlPriorityRank a.priority)
      (sqlPriorityRank b.priority) with h | h | h
  · left; simp [h]
  · rcases strLeB_total a.timestamp b.timestamp with ht | ht
    · left; simp [h, ht]
    · right; simp [h.symm, ht]
  · right; simp [h]

theorem triageLeB_trans (a b c : MessageRecord) (h1 : triageLeB a b = true)
    (h2 : triageLeB b c = true) : triageLeB a c = true := by
  unfold triageLeB at h1 h2 ⊢
  simp only [Bool.or_eq_true, Bool.and_eq_true, decide_eq_true_eq] at h1 h2 ⊢
  rcases h1 with h1 | ⟨h1e, h1t⟩ <;> rcases h2 with h2 | ⟨h2e, h2t⟩
  · exact Or.inl (Nat.lt_trans h1 h2)
  · exact Or.inl (h2e ▸ h1)
  · exact Or.inl (h1e ▸ h2)
  · exact Or.inr ⟨h1e.trans h2e, strLeB_trans _ _ _ h1t h2t⟩

/-!
## Claim theorems
-/

/-- C7: for every text whose normalized (stripped, lowercased) form is in the
configured noise set, and every chat kind, `MessageFilter.analyze` rejects
the message with priority `info` and the noise reason (`"noise_pattern"` is
the value the code uses for "reason = noise"), regardless of any urgent
keyword or question marker the text may also contain — the noise check is
first and unconditional.  Determinism and freedom from side effects hold by
construction: `analyze` is embedded as a pure function of its inputs. -/
theorem analyze_noise_always_rejected (cfg : FilterConfigV1)
    (text chat_type : String) (h : pyLower (pyStrip text) ∈ noiseSet cfg) :
    analyze cfg text chat_type =
      ⟨false, "info", "noise_pattern", ["шум"]⟩ := by
  unfold analyze
  simp [h]

/-- Witness for C7: the noise phrase `"срочно ok?"` — whose text also
contains the urgent keyword `"срочно"` and the question marker `"?"` — is
rejected as noise in a group chat, case-insensitively and modulo
whitespace. -/
theorem analyze_noise_always_rejected_witness :
    pyLower (pyStrip (" Срочно OK? ")) ∈
      noiseSet ⟨["срочно"], ["срочно ok?"], 5, true, false⟩ ∧
    analyze ⟨["срочно"], ["срочно ok?"], 5, true, false⟩ (" Срочно OK? ")
      ("group") = ⟨false, "info", "noise_pattern", ["шум"]⟩ :=
  ⟨by decide,
   analyze_noise_always_rejected ⟨["срочно"], ["срочно ok?"], 5, true, false⟩
     (" Срочно OK? ") ("group") (by decide)⟩

/-- C4 counterexample: `message_mapping` has no UNIQUE constraint on
`hub_message_id` (only the non-unique index `idx_hub_msg`), so inserting a
second record with an already-present `hub_message_id` does not raise
`IntegrityError`: both inserts succeed and the table holds two rows sharing
`hub_message_id = 100`. -/
theorem save_message_duplicate_hub_id_counterexample :
    let r : MessageRecord :=
      { hub_message_id := 100, original_message_id := 1,
        original_chat_id := -5, source_account := "work", sender_id := 7,
        sender_name := "Анна", sender_username := none, chat_name := "Чат",
        chat_type := "dm", priority := "normal",
        timestamp := "2024-01-01T10:00:00" }
    let step1 := V1DB.save_message {} r
    let step2 := V1DB.save_message step1.1 r
    step1.2 = 1 ∧ step2.2 = 2 ∧
      (step2.1.message_mapping.filter
        (fun x => decide (x.hub_message_id = 100))).length = 2 := by
  decide

/-- C4 amended: `save_message` unconditionally inserts a new row and returns
its rowid; because the schema places no uniqueness constraint on
`hub_message_id`, a second insert with the same `hub_message_id` succeeds
and the table can hold two rows sharing it — uniqueness holds only by
construction of the callers, not by the store. -/
theorem save_message_always_inserts (db : V1DB) (r : MessageRecord) :
    (db.save_message r).1.message_mapping =
      db.message_mapping ++
        [{ r with id := some (db.message_mapping.length + 1) }] ∧
    (db.save_message r).2 = db.message_mapping.length + 1 := by
  constructor <;> rfl

/-- C10: the dedup ledger is monotone and first-write-wins.  Conjunct 1:
a second `mark_processed` for the same `(source, chat_id, message_id)` key
leaves the store exactly as the first left it (in particular the
`processed_at` of the first call is kept — INSERT OR IGNORE).  Conjunct 2:
after `mark_processed`, `is_duplicate` returns true.  Conjunct 3: once
`is_duplicate` is true, no operation of the V2 store ever makes it false
again (no operation deletes from `processed_messages`). -/
theorem dedup_ledger
    : (∀ (db : V2DB) (s : String) (c : Int) (m : Nat) (t t' : String),
        (db.mark_processed s c m t).mark_processed s c m t' =
          db.mark_processed s c m t) ∧
      (∀ (db : V2DB) (s : String) (c : Int) (m : Nat) (t : String),
        (db.mark_processed s c m t).is_duplicate s c m = true) ∧
      (∀ (db : V2DB) (s : String) (c : Int) (m : Nat),
        db.is_duplicate s c m = true →
        ∀ op : V2Op, (op.apply db).is_duplicate s c m = true) := by
  refine ⟨?_, ?_, ?_⟩
  · intro db s c m t t'
    exact mark_processed_of_duplicate _ _ _ _ _
      (is_duplicate_mark_processed_self db s c m t)
  · exact is_duplicate_mark_processed_self
  · intro db s c m h op
    cases op with
    | save_hub_message msg =>
      simpa [V2Op.apply, V2DB.save_hub_message, V2DB.is_duplicate]
        using h
    | mark_replied hubId now =>
      simpa [V2Op.apply, V2DB.mark_replied, V2DB.is_duplicate] using h
    | mute_chat chatId reason now =>
      simpa [V2Op.apply, V2DB.mute_chat, V2DB.is_duplicate] using h
    | unmute_chat chatId =>
      simpa [V2Op.apply, V2DB.unmute_chat, V2DB.is_duplicate] using h
    | mark_processed s' c' m' now =>
      show (V2DB.mark_processed db s' c' m' now).is_duplicate s c m = true
      unfold V2DB.mark_processed
      split
      · exact h
      · exact is_duplicate_monotone_append db _ s c m h
    | increment_stat src n today =>
      show (V2DB.increment_stat db src n today).is_duplicate s c m = true
      have hp := increment_stat_processed db src n today
      unfold V2DB.is_duplicate at h ⊢
      rw [hp]
      exact h

/-- Witness for C10: a concrete ledger entry survives an unrelated
`unmute_chat` operation. -/
theorem dedup_ledger_witness :
    (V2Op.apply (V2Op.unmute_chat 3)
      { processed_messages :=
          [⟨"business_dm", 1, 2, "2024-01-01T00:00:00"⟩] }).is_duplicate
      ("business_dm") 1 2 = true :=
  dedup_ledger.2.2
    { processed_messages := [⟨"business_dm", 1, 2, "2024-01-01T00:00:00"⟩] }
    ("business_dm") 1 2 (by decide) (V2Op.unmute_chat 3)

/-- C8: `get_unreplied` returns only unreplied mappings, ordered by the
triage key — priority rank first (urgent before normal before info), then
timestamp ascending within a tier; and on the scenario database with
priorities [normal, urgent, info, urgent] at increasing timestamps it
returns the two urgent rows first in chronological order, then the normal
row, then the info row. -/
theorem get_unreplied_triage :
    (∀ (db : V1DB) (limit : Nat),
      (∀ x ∈ db.get_unreplied limit, x.replied = false) ∧
      (db.get_unreplied limit).Pairwise (fun a b => triageLeB a b = true)) ∧
    triageScenarioDb.get_unreplied 20 =
      [{ triageRec 2 ("urgent") ("2024-01-01T10:02:00") with id := some 2 },
       { triageRec 4 ("urgent") ("2024-01-01T10:04:00") with id := some 4 },
       { triageRec 1 ("normal") ("2024-01-01T10:01:00") with id := some 1 },
       { triageRec 3 ("info") ("2024-01-01T10:03:00") with id := some 3 }] := by
  constructor
  · intro db limit
    constructor
    · intro x hx
      have hx1 : x ∈ sortByLe triageLeB
          (db.message_mapping.filter (fun r => !r.replied)) :=
        List.take_subset _ _ hx
      have hx2 := (mem_sortByLe _ x _).mp hx1
      have hx3 := List.mem_filter.mp hx2
      simpa using hx3.2
    · exact List.Pairwise.sublist (List.take_sublist _ _)
        (pairwise_sortByLe triageLeB triageLeB_total triageLeB_trans _)
  · decide

/-- Witness for C8: the head of the scenario queue is indeed unreplied. -/
theorem get_unreplied_triage_witness :
    ({ triageRec 2 ("urgent") ("2024-01-01T10:02:00") with
        id := some 2 } : MessageRecord).replied = false :=
  (get_unreplied_triage.1 triageScenarioDb 20).1 _ (by decide)

/-- C5 counterexample: the group handler filters ("ок" is 2 < 5 characters,
and also a noise phrase) *before* the dedup block, so a dropped message
leaves the ledger without the `(source, chat_id, message_id)` key — the
whole world is unchanged and a redelivery is not rejected as a duplicate,
contradicting the claim that the ledger still records the key. -/
theorem group_filtered_message_not_in_ledger_counterexample :
    onGroupMessage hubCfg ("2024-01-01T10:00:01") {} noiseGroupMsg =
      ({} : V2World) ∧
    (onGroupMessage hubCfg ("2024-01-01T10:00:01") {}
      noiseGroupMsg).db.is_duplicate ("group_students") (-100) 7 = false := by
  decide

/-- C5 amended: when an inbound group message is dropped by filtering (noise
phrase or below the minimum group length), no MessageMapping is created and
the dedup ledger does **not** record the key either — the handler returns
before `mark_processed` — so a redelivery is dropped again by the same
filter (never forwarded), not by dedup. -/
theorem group_filtered_message_drops_everything (cfg : V2Config)
    (now : String) (w : V2World) (m : InboundMessage) (src : MessageSource)
    (hsrc : getSourceForChat cfg m.chat_id = some src)
    (hmute : w.db.is_muted m.chat_id = false)
    (hbot : (match m.from_user with
             | some u => u.is_bot
             | none => false) = false)
    (hfilter :
      (pyOrStr m.text m.caption).length <
          cfg.filters.min_group_message_length ∨
      cfg.filters.noise_patterns.any (fun nz =>
        decide (pyStrip (pyLower (pyOrStr m.text m.caption)) =
          pyLower nz)) = true) :
    onGroupMessage cfg now w m = w := by
  unfold onGroupMessage
  rw [hsrc]
  simp only [hmute, hbot, Bool.false_eq_true, if_false]
  rcases hfilter with h | h
  · simp [h]
  · by_cases hlen : (pyOrStr m.text m.caption).length <
        cfg.filters.min_group_message_length
    · simp [hlen]
    · simp [hlen, h]

/-- Witness for C5 amended: the "ок" event is dropped with the whole world
unchanged. -/
theorem group_filtered_message_drops_everything_witness :
    onGroupMessage hubCfg ("2024-01-01T10:00:01") {} noiseGroupMsg =
      ({} : V2World) :=
  group_filtered_message_drops_everything hubCfg ("2024-01-01T10:00:01") {}
    noiseGroupMsg .group_students (by decide) (by decide) (by decide)
    (Or.inl (by decide))

/-- C2 counterexample: with chat 10 muted, the business handler skips the
event *without* marking it processed (the mute check precedes the dedup
block and returns), so after `unmute_chat` the redelivered identical event
is forwarded — a mapping and a hub post appear — contradicting "durably
marked processed, never forwarded after unmuting even if redelivered". -/
theorem muted_event_not_marked_processed_counterexample :
    let w0 : V2World := { db := V2DB.mute_chat {} 10 none ("T0") }
    let w1 := onBusinessMessage hubCfg ("2024-01-01T09:00:01") w0 bizMsg
    let w2 := { w1 with db := w1.db.unmute_chat 10 }
    let w3 := onBusinessMessage hubCfg ("2024-01-01T09:05:00") w2 bizMsg
    w1 = w0 ∧
    w1.db.is_duplicate ("business_dm") 10 42 = false ∧
    w3.db.hub_messages.length = 1 ∧
    w3.hub_posts.length = 1 := by
  decide

/-- C2 amended: while a chat is muted no event from it produces a mapping —
the handlers skip muted chats entirely — but such events are **not** marked
processed in the dedup ledger (the handlers return before
`mark_processed`), so a redelivery after `unmute_chat` is forwarded as a
fresh event.  Both the business handler and the group handler leave the
whole world unchanged for events from a muted chat. -/
theorem muted_chat_events_skipped_entirely (cfg : V2Config) (now : String)
    (w : V2World) (m : InboundMessage)
    (h : w.db.is_muted m.chat_id = true) :
    onBusinessMessage cfg now w m = w ∧ onGroupMessage cfg now w m = w := by
  constructor
  · unfold onBusinessMessage businessProceeds businessOutgoingGuard
    simp [h]
  · unfold onGroupMessage
    cases hs : getSourceForChat cfg m.chat_id with
    | none => rfl
    | some src => simp [h]

/-- Witness for C2 amended: concrete muted chat 10, both handlers are
no-ops. -/
theorem muted_chat_events_skipped_entirely_witness :
    onBusinessMessage hubCfg ("T1")
      { db := V2DB.mute_chat {} 10 none ("T0") } bizMsg =
      { db := V2DB.mute_chat {} 10 none ("T0") } ∧
    onGroupMessage hubCfg ("T1")
      { db := V2DB.mute_chat {} 10 none ("T0") } bizMsg =
      { db := V2DB.mute_chat {} 10 none ("T0") } :=
  muted_chat_events_skipped_entirely hubCfg ("T1")
    { db := V2DB.mute_chat {} 10 none ("T0") } bizMsg (by decide)

/-- C1 counterexample: the ingestion path is a separate `is_duplicate` read
(`business.py:93`) followed by a separate `mark_processed` write
(`business.py:95`, INSERT OR IGNORE whose outcome is not consulted) — not
an insert-or-fail uniqueness gate.  Under the concurrency model of the
design (§5: every store call and network send is a suspension point),
two concurrently scheduled deliveries of the identical origin event can
both observe `is_duplicate = false` before either marks, and then both run
the act phase: the result is two MessageMapping rows and two hub posts for
one origin event. -/
theorem dedup_race_two_hub_posts_counterexample :
    businessProceeds {} bizMsg = true ∧
    businessProceeds {} bizMsg = true ∧
    (businessCommit hubCfg ("T1")
        (businessCommit hubCfg ("T1") {} bizMsg) bizMsg).hub_posts.length
      = 2 ∧
    ((businessCommit hubCfg ("T1")
        (businessCommit hubCfg ("T1") {} bizMsg) bizMsg).db.hub_messages.filter
      (fun r => decide (r.source = "business_dm" ∧
        r.source_message_id = some 42 ∧
        r.source_chat_id = some (10 : Int)))).length = 2 := by
  decide

/-- C1 amended: under sequential delivery the ingestion path is idempotent —
a fresh event is forwarded once and the identical redelivery is a complete
no-op, so exactly one MessageMapping row and one hub post result.  The race
however is closed neither by an insert-or-fail constraint nor by the
check-then-act pair (`is_duplicate` then `mark_processed`, INSERT OR
IGNORE): see the counterexample for the interleaved execution. -/
theorem business_sequential_redelivery_once (cfg : V2Config)
    (n1 n2 : String) (w : V2World) (m : InboundMessage)
    (hmute : w.db.is_muted m.chat_id = false)
    (hdup : w.db.is_duplicate ("business_dm") m.chat_id m.message_id = false) :
    onBusinessMessage cfg n2 (onBusinessMessage cfg n1 w m) m =
      onBusinessMessage cfg n1 w m ∧
    (onBusinessMessage cfg n1 w m).hub_posts.length =
      w.hub_posts.length + 1 ∧
    (onBusinessMessage cfg n1 w m).db.hub_messages.length =
      w.db.hub_messages.length + 1 := by
  have hpro : businessProceeds w m = true := by
    unfold businessProceeds
    simp [hmute, hdup]
  have h1 : onBusinessMessage cfg n1 w m = businessCommit cfg n1 w m := by
    unfold onBusinessMessage businessOutgoingGuard
    simp [hpro]
  have hmuted2 : (businessCommit cfg n1 w m).db.muted_chats =
      w.db.muted_chats := by
    unfold businessCommit V2World.sendToHub V2DB.save_hub_message
    simp [increment_stat_muted, mark_processed_muted]
  have hdup2 : (businessCommit cfg n1 w m).db.is_duplicate ("business_dm")
      m.chat_id m.message_id = true := by
    unfold businessCommit V2World.sendToHub V2DB.save_hub_message
    have := is_duplicate_mark_processed_self w.db ("business_dm") m.chat_id
      m.message_id n1
    unfold V2DB.is_duplicate at this ⊢
    simpa [increment_stat_processed] using this
  constructor
  · rw [h1]
    unfold onBusinessMessage businessOutgoingGuard businessProceeds
    have : (businessCommit cfg n1 w m).db.is_muted m.chat_id = false := by
      unfold V2DB.is_muted
      rw [hmuted2]
      unfold V2DB.is_muted at hmute
      exact hmute
    simp [this, hdup2]
  · rw [h1]
    constructor
    · unfold businessCommit V2World.sendToHub
      simp
    · unfold businessCommit V2World.sendToHub V2DB.save_hub_message
      simp [increment_stat_hub, mark_processed_hub]

/-- Witness for C1 amended: the concrete business DM, delivered twice in
sequence on the empty world, yields one mapping and one hub post. -/
theorem business_sequential_redelivery_once_witness :
    onBusinessMessage hubCfg ("T2")
        (onBusinessMessage hubCfg ("T1") {} bizMsg) bizMsg =
      onBusinessMessage hubCfg ("T1") {} bizMsg ∧
    (onBusinessMessage hubCfg ("T1") {} bizMsg).hub_posts.length = 0 + 1 ∧
    (onBusinessMessage hubCfg ("T1") {} bizMsg).db.hub_messages.length =
      0 + 1 :=
  business_sequential_redelivery_once hubCfg ("T1") ("T2") {} bizMsg
    (by decide) (by decide)

theorem sendReply_ok_db (st : RouterState) (rid : Nat) (txt : String)
    (aiAct : Option String) (now : String) (record : MessageRecord)
    (hfind : st.db.find_by_hub_message rid = some record)
    (hclient : st.clients.contains record.source_account = true) :
    (sendReplyToOriginal st rid txt aiAct Dispatch.ok now).db =
      st.db.mark_replied rid now := by
  unfold sendReplyToOriginal
  rw [hfind]
  simp only [hclient, not_true, if_neg, if_false]
  cases aiAct with
  | some act =>
    simp only [handleAction]
    split <;> rfl
  | none =>
    split
    next heq => exact Option.noConfusion heq
    next =>
      split
      · split
        · simp only [handleAction]
          split <;> rfl
        · rfl
      · rfl

/-- C3: in `_send_reply_to_original` the outbound dispatch completes before
`mark_replied`.  Conjunct 1: on dispatch failure the state is exactly the
old state plus one moderator error notice — in particular the mapping and
its `replied`/`replied_at` fields are unchanged.  Conjunct 2: that notice
spells out the destination chat name and chat id.  Conjunct 3: on a
successful dispatch every mapping row for the hub id carries `replied =
true` with the non-null `replied_at = now`. -/
theorem reply_dispatch_before_mark (st : RouterState) (replyToId : Nat)
    (replyText : String) (aiAction : Option String) (now : String)
    (record : MessageRecord)
    (hfind : st.db.find_by_hub_message replyToId = some record)
    (hclient : st.clients.contains record.source_account = true) :
    (∀ e, sendReplyToOriginal st replyToId replyText aiAction
        (Dispatch.fail e) now =
      { st with moderator_replies := st.moderator_replies ++
          [dispatchErrorNotice e record] }) ∧
    (∀ e, dispatchErrorNotice e record =
      "❌ Ошибка отправки: " ++ e ++ "\nЧат: " ++ record.chat_name ++
        " (" ++ toString record.original_chat_id ++ ")") ∧
    (∀ x ∈ (sendReplyToOriginal st replyToId replyText aiAction Dispatch.ok
        now).db.message_mapping,
      x.hub_message_id = replyToId → x.replied = true ∧
        x.replied_at = some now) := by
  refine ⟨?_, fun e => rfl, ?_⟩
  · intro e
    unfold sendReplyToOriginal
    rw [hfind]
    simp only [hclient, not_true, if_false]
  · rw [sendReply_ok_db st replyToId replyText aiAction now record hfind
      hclient]
    exact mark_replied_spec st.db replyToId now

/-- Witness for C3: on the concrete state, a failed dispatch leaves only the
error notice, and a successful dispatch marks the row replied with the
non-null timestamp. -/
theorem reply_dispatch_before_mark_witness :
    (sendReplyToOriginal replyStateC3 5 ("Ответ") none
        (Dispatch.fail ("boom")) ("2024-01-02T09:00:00") =
      { replyStateC3 with moderator_replies :=
          replyStateC3.moderator_replies ++
            [dispatchErrorNotice ("boom") replyRecC3] }) ∧
    (({ replyRecC3 with
        replied := true
        replied_at := some ("2024-01-02T09:00:00") } : MessageRecord).replied
        = true ∧
      ({ replyRecC3 with
        replied := true
        replied_at := some ("2024-01-02T09:00:00") } :
          MessageRecord).replied_at = some ("2024-01-02T09:00:00")) :=
  ⟨(reply_dispatch_before_mark replyStateC3 5 ("Ответ") none
      ("2024-01-02T09:00:00") replyRecC3 (by decide) (by decide)).1 ("boom"),
   (reply_dispatch_before_mark replyStateC3 5 ("Ответ") none
      ("2024-01-02T09:00:00") replyRecC3 (by decide) (by decide)).2.2
      ({ replyRecC3 with
         replied := true
         replied_at := some ("2024-01-02T09:00:00") }) (by decide)
      (by decide)⟩

/-- C9: a moderator reply whose stripped, lowercased text equals the accept
token `!ok`, addressed to a hub post with a pending draft, dispatches the
stored draft text verbatim to the mapped original chat (as a reply to the
original message), removes the draft from the pending set while logging the
`accepted` transition with the draft text, and marks the mapping replied. -/
theorem accept_shorthand_dispatches_draft (st : RouterState) (rid : Nat)
    (replyText draft : String) (record : MessageRecord) (now : String)
    (hai : st.aiPresent = true)
    (htok : pyLower (pyStrip replyText) = "!ok")
    (hdraft : lookupDraft st.pending_drafts rid = some draft)
    (hne : draft ≠ "")
    (hfind : st.db.find_by_hub_message rid = some record)
    (hclient : st.clients.contains record.source_account = true) :
    (onHubReply st (some rid) replyText Dispatch.ok now).outbox =
      st.outbox ++
        [(record.original_chat_id, record.original_message_id, draft)] ∧
    lookupDraft (onHubReply st (some rid) replyText Dispatch.ok
      now).pending_drafts rid = none ∧
    (onHubReply st (some rid) replyText Dispatch.ok now).ai_stats =
      st.ai_stats ++ [⟨rid, draft, "accepted", draft⟩] ∧
    (∀ x ∈ (onHubReply st (some rid) replyText Dispatch.ok
        now).db.message_mapping,
      x.hub_message_id = rid → x.replied = true ∧ x.replied_at = some now) := by
  have hne0 : ¬ replyText = "" := by
    intro h
    subst h
    exact absurd htok (by decide)
  have hstep : onHubReply st (some rid) replyText Dispatch.ok now =
      sendReplyToOriginal st rid draft (some ("accepted")) Dispatch.ok now := by
    unfold onHubReply handleAiActionOnOriginal
    simp only [htok, hdraft, hai, hne0, if_false, Option.isSome_some,
      true_and, and_true, true_or, or_true, if_true, ite_true, ite_false,
      Option.some.injEq, ne_eq, hne, not_false_iff]
  have hsend : sendReplyToOriginal st rid draft (some ("accepted"))
      Dispatch.ok now =
      { st with
        db := st.db.mark_replied rid now
        pending_drafts := popDraft st.pending_drafts rid
        ai_stats := st.ai_stats ++ [⟨rid, draft, "accepted", draft⟩]
        outbox := st.outbox ++
          [(record.original_chat_id, record.original_message_id, draft)]
        moderator_replies := st.moderator_replies ++
          [dispatchOkNotice record (some ("accepted"))] } := by
    unfold sendReplyToOriginal handleAction
    rw [hfind]
    simp only [hclient, not_true, if_false, hdraft, Option.getD_some]
    simp
  rw [hstep, hsend]
  refine ⟨rfl, lookupDraft_popDraft_self _ _, rfl, ?_⟩
  exact mark_replied_spec st.db rid now

/-- Witness for C9: the moderator reply " !OK " (case-insensitive, padded)
dispatches the draft verbatim, clears the pending set, logs the accepted
transition, and the mapping row is marked replied. -/
theorem accept_shorthand_dispatches_draft_witness :
    (onHubReply draftStateC9 (some 5) (" !OK ") Dispatch.ok
        ("2024-01-02T09:00:00")).outbox =
      draftStateC9.outbox ++
        [(replyRecC9.original_chat_id, replyRecC9.original_message_id,
          "Урок в 18:00")] ∧
    lookupDraft (onHubReply draftStateC9 (some 5) (" !OK ") Dispatch.ok
      ("2024-01-02T09:00:00")).pending_drafts 5 = none ∧
    (onHubReply draftStateC9 (some 5) (" !OK ") Dispatch.ok
        ("2024-01-02T09:00:00")).ai_stats =
      draftStateC9.ai_stats ++ [⟨5, "Урок в 18:00", "accepted", "Урок в 18:00"⟩] ∧
    (∀ x ∈ (onHubReply draftStateC9 (some 5) (" !OK ") Dispatch.ok
        ("2024-01-02T09:00:00")).db.message_mapping,
      x.hub_message_id = 5 → x.replied = true ∧
        x.replied_at = some ("2024-01-02T09:00:00")) :=
  accept_shorthand_dispatches_draft draftStateC9 5 (" !OK ")
    ("Урок в 18:00") replyRecC9 ("2024-01-02T09:00:00") (by decide)
    (by decide) (by decide) (by decide) (by decide) (by decide)

/-- C6 (evaluation at the failing input): on a free reply with custom text
to a hub post with a pending draft, the custom text is dispatched and the
draft leaves the pending set — but the single analytics record carries
`draft_text = ""` instead of the pending draft text "Урок в 18:00", because
`router.py:157` pops the draft from `pending_drafts` before delegating to
`AIAssistant.handle_action`, whose own `pending_drafts.pop(hub_message_id,
"")` then finds nothing.  The `accepted` path (`router.py:89`) does not
pre-pop and logs the draft correctly, which shows the pre-pop on the edited
path to be the slip. -/
theorem edited_draft_analytics_loses_draft_text :
    (onHubReply draftStateC6 (some 5) ("Спасибо! Урок завтра в 19:00")
        Dispatch.ok ("2024-01-02T09:00:00")).outbox =
      [(-500, 77, "Спасибо! Урок завтра в 19:00")] ∧
    (onHubReply draftStateC6 (some 5) ("Спасибо! Урок завтра в 19:00")
        Dispatch.ok ("2024-01-02T09:00:00")).pending_drafts = [] ∧
    (onHubReply draftStateC6 (some 5) ("Спасибо! Урок завтра в 19:00")
        Dispatch.ok ("2024-01-02T09:00:00")).ai_stats =
      [⟨5, "", "edited", "Спасибо! Урок завтра в 19:00"⟩] := by
  decide
